import Mathlib

/-!
Shallow embedding of the core of `src/app.py` (a Streamlit vehicle-listings
dashboard): the dataset loader (`load_data`, lines 12-26) and the filter
pipeline (`filtered_data`, lines 74-96), together with the sidebar logic that
builds the predicate set from widget state (lines 44-72).

Numeric cells are modelled as `Option Int` (pandas nullable numerics; `none`
is NaN/missing), categorical cells as `Option String`.  Pandas comparison
semantics are embedded explicitly: a comparison or `isin` test against a
missing value is `false`, so a row with a missing value never passes a mask.
-/

namespace VehiclesApp

/-- Whitespace-delimited tokens of a character list, as Python `str.split()`
with no separator argument produces them: maximal runs of non-whitespace
characters, empty runs discarded. -/
def wsTokens (cs : List Char) : List (List Char) :=
  (cs.foldr (fun c acc =>
    if c.isWhitespace then [] :: acc
    else match acc with
      | [] => [[c]]
      | t :: ts => (c :: t) :: ts) []).filter (fun t => !t.isEmpty)

/-- Python `s.split()` (split on whitespace, drop empty tokens), embedded over
the string's character list. -/
def splitTokens (s : String) : List String := (wsTokens s.data).map String.mk

/-- Line 25: `df["model"].str.split().str[0]` applied to one cell — the first
whitespace token of a non-missing model string, missing when the model is
missing or has no token. -/
def deriveManufacturer (m : Option String) : Option String :=
  m.bind (fun s => (splitTokens s).head?)

/-- Numeric value of a decimal digit character, `none` for a non-digit. -/
def digitVal (c : Char) : Option Nat :=
  if 48 ≤ c.toNat ∧ c.toNat ≤ 57 then some (c.toNat - 48) else none

/-- Parse a non-empty all-digit character list as a natural number. -/
def parseNatDigits (cs : List Char) : Option Nat :=
  if cs.isEmpty then none
  else cs.foldl (fun acc c =>
    match acc, digitVal c with
    | some n, some d => some (10 * n + d)
    | _, _ => none) (some 0)

/-- Parse an optionally-signed integer literal; `none` when the string is not
numeric.  This is the integer fragment of the parsing `pd.to_numeric` does. -/
def parseIntStr (s : String) : Option Int :=
  match s.data with
  | '-' :: rest => (parseNatDigits rest).map (fun n => -(n : Int))
  | cs => (parseNatDigits cs).map (fun n => (n : Int))

/-- Line 22: `pd.to_numeric(df[col], errors="coerce")` applied to one cell:
missing stays missing, an unparsable value becomes missing, a numeric literal
becomes its value. -/
def toNumeric (v : Option String) : Option Int := v.bind parseIntStr

/-- Which columns the in-memory frame has.  Column presence is what the
script's `if col in df.columns` checks consult. -/
structure Schema where
  hasPrice : Bool
  hasOdometer : Bool
  hasModelYear : Bool
  hasCondition : Bool
  hasModel : Bool
  hasManufacturer : Bool
  deriving DecidableEq

/-- One row of the raw CSV: each cell is raw text or missing.  A cell of a
column the schema lacks is irrelevant (kept `none` by convention). -/
structure RawRow where
  price : Option String
  odometer : Option String
  model_year : Option String
  condition : Option String
  model : Option String
  deriving DecidableEq

/-- The raw CSV as read by `pd.read_csv`: a schema plus rows. -/
structure RawFrame where
  schema : Schema
  rows : List RawRow
  deriving DecidableEq

/-- One loaded row: the three numeric columns coerced, `manufacturer`
derived from `model`. -/
structure Row where
  price : Option Int
  odometer : Option Int
  model_year : Option Int
  condition : Option String
  model : Option String
  manufacturer : Option String
  deriving DecidableEq

/-- Lines 20-25 applied to one row: numeric coercion of each of the three
numeric columns that exist, `manufacturer` derived iff `model` exists. -/
def loadRow (s : Schema) (r : RawRow) : Row where
  price := if s.hasPrice then toNumeric r.price else none
  odometer := if s.hasOdometer then toNumeric r.odometer else none
  model_year := if s.hasModelYear then toNumeric r.model_year else none
  condition := if s.hasCondition then r.condition else none
  model := if s.hasModel then r.model else none
  manufacturer := if s.hasModel then deriveManufacturer r.model else none

/-- The loaded in-memory table. -/
structure Frame where
  schema : Schema
  rows : List Row
  deriving DecidableEq

/-- Lines 19-26 of `load_data` on a successfully read CSV: per-row coercion
and derivation; `manufacturer` exists afterwards iff `model` did (line 24). -/
def processFrame (f : RawFrame) : Frame where
  schema := { f.schema with hasManufacturer := f.schema.hasModel }
  rows := f.rows.map (loadRow f.schema)

/-- Outcome of `pd.read_csv(path)` at line 15: the file parses, the file does
not exist (raises `FileNotFoundError`), or the file exists but cannot be read
(raises a different exception, e.g. `PermissionError`). -/
inductive ReadResult where
  | found (f : RawFrame)
  | notFound
  | unreadable
  deriving DecidableEq

/-- What a call to `load_data` does: return a frame having emitted the given
user-visible messages, or let an exception escape. -/
inductive LoadOutcome where
  | ok (f : Frame) (msgs : List String)
  | raised (exc : String)
  deriving DecidableEq

/-- The frame `pd.DataFrame()` builds at line 18: no columns, no rows. -/
def emptyFrame : Frame where
  schema := ⟨false, false, false, false, false, false⟩
  rows := []

/-- The `st.error` message of line 17. -/
def missingFileMsg : String :=
  "No se encontro el archivo vehicles_us.csv. Coloca vehicles_us.csv en el directorio del proyecto."

/-- Lines 13-26: read the CSV; on `FileNotFoundError` show an error message
and return an empty frame; any other read failure is not caught and the
exception escapes; on success, coerce and derive columns. -/
def load_data : ReadResult → LoadOutcome
  | ReadResult.found f => LoadOutcome.ok (processFrame f) []
  | ReadResult.notFound => LoadOutcome.ok emptyFrame [missingFileMsg]
  | ReadResult.unreadable => LoadOutcome.raised "PermissionError"

/-- The session after lines 28-31: crashed on an escaped exception, stopped by
`st.stop()` because the loaded frame is empty, or active with the loaded
frame. -/
inductive SessionResult where
  | crashed (exc : String)
  | stopped (msgs : List String)
  | active (f : Frame) (msgs : List String)
  deriving DecidableEq

/-- Lines 28-31: `car_data = load_data()`; `if car_data.empty: st.stop()`. -/
def startSession (r : ReadResult) : SessionResult :=
  match load_data r with
  | LoadOutcome.ok f msgs =>
      if f.rows.isEmpty then SessionResult.stopped msgs
      else SessionResult.active f msgs
  | LoadOutcome.raised e => SessionResult.crashed e

/-- The predicate set the sidebar produces (lines 44-72): `price_range` is
always built; the other four are `none` exactly when the script skipped the
widget because the column is absent. -/
structure Preds where
  price_range : Int × Int
  odometer_range : Option (Int × Int)
  year_range : Option (Int × Int)
  selected_conditions : Option (List String)
  selected_manufacturers : Option (List String)
  deriving DecidableEq

/-- A pandas mask conjunct `(col >= lo) & (col <= hi)` on one cell: `false`
on a missing value (NaN comparisons are falsy), the closed-interval test
otherwise. -/
def numericPass (v : Option Int) (lo hi : Int) : Bool :=
  match v with
  | none => false
  | some x => decide (lo ≤ x) && decide (x ≤ hi)

/-- A pandas `col.isin(allowed)` mask on one cell: `false` on a missing
value, membership otherwise (the allowed lists hold only strings). -/
def isinPass (v : Option String) (allowed : List String) : Bool :=
  match v with
  | none => false
  | some s => allowed.contains s

/-- Lines 75-78: the price range mask, applied unconditionally. -/
def priceStep (rng : Int × Int) (l : List Row) : List Row :=
  l.filter (fun r => numericPass r.price rng.1 rng.2)

/-- Lines 80-84: the odometer mask, applied only when `odometer_range` was
built (`is not None`). -/
def odometerStep (rng : Option (Int × Int)) (l : List Row) : List Row :=
  match rng with
  | none => l
  | some rg => l.filter (fun r => numericPass r.odometer rg.1 rg.2)

/-- Lines 86-90: the model-year mask, applied only when `year_range` was
built. -/
def yearStep (rng : Option (Int × Int)) (l : List Row) : List Row :=
  match rng with
  | none => l
  | some rg => l.filter (fun r => numericPass r.model_year rg.1 rg.2)

/-- Lines 92-93: `if selected_conditions:` — Python truthiness, so the mask is
skipped both when the variable is `None` and when the selection list is
empty. -/
def conditionStep (sel : Option (List String)) (l : List Row) : List Row :=
  match sel with
  | none => l
  | some cs => if cs.isEmpty then l else l.filter (fun r => isinPass r.condition cs)

/-- Lines 95-96: `if selected_manufacturers:` — same truthiness skip. -/
def manufacturerStep (sel : Option (List String)) (l : List Row) : List Row :=
  match sel with
  | none => l
  | some ms => if ms.isEmpty then l else l.filter (fun r => isinPass r.manufacturer ms)

/-- Lines 74-96: the whole filter pipeline over the loaded rows. -/
def filtered_data (df : List Row) (p : Preds) : List Row :=
  manufacturerStep p.selected_manufacturers
    (conditionStep p.selected_conditions
      (yearStep p.year_range
        (odometerStep p.odometer_range
          (priceStep p.price_range df))))

/-- The widget outputs the user can set: slider positions and multiselect
selections.  (The script computes slider bounds from the data; the chosen
positions are what feeds the predicate set.) -/
structure UI where
  priceRange : Int × Int
  odometerRange : Int × Int
  yearRange : Int × Int
  conditions : List String
  manufacturers : List String
  deriving DecidableEq

/-- Lines 44-72: building the predicate set from the loaded schema and the
widget state.  Lines 44-46 read `car_data["price"]` with no presence check,
so an absent `price` column raises a `KeyError`; the other four widgets are
guarded by `if col in car_data.columns`. -/
def buildPreds (s : Schema) (ui : UI) : Except String Preds :=
  if s.hasPrice = false then Except.error "KeyError: price"
  else Except.ok
    { price_range := ui.priceRange
      odometer_range := if s.hasOdometer then some ui.odometerRange else none
      year_range := if s.hasModelYear then some ui.yearRange else none
      selected_conditions := if s.hasCondition then some ui.conditions else none
      selected_manufacturers := if s.hasManufacturer then some ui.manufacturers else none }

/-- The per-interaction state: the loaded table (line 28) and the derived
filtered view (lines 74-96). -/
structure SessionState where
  car_data : Frame
  filtered : List Row
  deriving DecidableEq

/-- One interaction: recompute `filtered_data` from `car_data` and the fresh
predicate set; `car_data` is only read (line 74 starts from
`car_data.copy()`). -/
def applyFilter (st : SessionState) (p : Preds) : SessionState where
  car_data := st.car_data
  filtered := filtered_data st.car_data.rows p

/-! ### Example data used to instantiate the theorems -/

/-- A fully-populated row: price 5, odometer 3, year 2000, condition good. -/
def exRow : Row := ⟨some 5, some 3, some 2000, some "good", some "Ford F-150", some "Ford"⟩

/-- A row all of whose cells are missing (in particular a missing price). -/
def exRowNoPrice : Row := ⟨none, none, none, none, none, none⟩

/-- A one-row table. -/
def exTable : List Row := [exRow]

/-- A two-row table whose second row has a missing price. -/
def table2 : List Row := [exRow, exRowNoPrice]

/-- Price range [0,10], no other predicate. -/
def basePreds : Preds := ⟨(0, 10), none, none, none, none⟩

/-- Price range [5,5] (the widget default when 5 is the one non-missing
price), no other predicate: the sidebar state with nothing touched. -/
def defaultPreds : Preds := ⟨(5, 5), none, none, none, none⟩

/-- An empty condition selection (`selected_conditions = []`). -/
def predsEmptyCond : Preds := ⟨(0, 10), none, none, some [], none⟩

/-- A one-element condition selection. -/
def predsGoodCond : Preds := ⟨(0, 10), none, none, some ["good"], none⟩

/-- A degenerate price range: lo 5 > hi 4. -/
def predsBadPrice : Preds := ⟨(5, 4), none, none, none, none⟩

/-- A degenerate odometer range: lo 7 > hi 2. -/
def predsBadOdometer : Preds := ⟨(0, 10), some (7, 2), none, none, none⟩

/-- A degenerate model-year range: lo 2010 > hi 1990. -/
def predsBadYear : Preds := ⟨(0, 10), none, some (2010, 1990), none, none⟩

/-! ### Basic lemmas about the mask predicates and the filter steps -/

theorem numericPass_iff (v : Option Int) (lo hi : Int) :
    numericPass v lo hi = true ↔ ∃ x, v = some x ∧ lo ≤ x ∧ x ≤ hi := by
  cases v <;> simp [numericPass]

theorem isinPass_iff (v : Option String) (cs : List String) :
    isinPass v cs = true ↔ ∃ s, v = some s ∧ s ∈ cs := by
  cases v <;> simp [isinPass]

theorem numericPass_false_of_gt (v : Option Int) (lo hi : Int) (h : hi < lo) :
    numericPass v lo hi = false := by
  cases v with
  | none => rfl
  | some x =>
    simp only [numericPass, Bool.and_eq_false_iff, decide_eq_false_iff_not]
    omega

theorem priceStep_sublist (rng : Int × Int) (l : List Row) :
    List.Sublist (priceStep rng l) l := List.filter_sublist l

theorem odometerStep_sublist (rng : Option (Int × Int)) (l : List Row) :
    List.Sublist (odometerStep rng l) l := by
  cases rng with
  | none => exact List.Sublist.refl l
  | some rg => exact List.filter_sublist l

theorem yearStep_sublist (rng : Option (Int × Int)) (l : List Row) :
    List.Sublist (yearStep rng l) l := by
  cases rng with
  | none => exact List.Sublist.refl l
  | some rg => exact List.filter_sublist l

theorem conditionStep_sublist (sel : Option (List String)) (l : List Row) :
    List.Sublist (conditionStep sel l) l := by
  unfold conditionStep
  split
  · exact List.Sublist.refl l
  · split
    · exact List.Sublist.refl l
    · exact List.filter_sublist l

theorem manufacturerStep_sublist (sel : Option (List String)) (l : List Row) :
    List.Sublist (manufacturerStep sel l) l := by
  unfold manufacturerStep
  split
  · exact List.Sublist.refl l
  · split
    · exact List.Sublist.refl l
    · exact List.filter_sublist l

theorem odometerStep_nil (rng : Option (Int × Int)) : odometerStep rng [] = [] := by
  cases rng <;> rfl

theorem yearStep_nil (rng : Option (Int × Int)) : yearStep rng [] = [] := by
  cases rng <;> rfl

theorem conditionStep_nil (sel : Option (List String)) : conditionStep sel [] = [] := by
  unfold conditionStep
  split
  · rfl
  · split <;> rfl

theorem manufacturerStep_nil (sel : Option (List String)) : manufacturerStep sel [] = [] := by
  unfold manufacturerStep
  split
  · rfl
  · split <;> rfl

theorem mem_priceStep {r : Row} {rng : Int × Int} {l : List Row}
    (h : r ∈ priceStep rng l) :
    r ∈ l ∧ numericPass r.price rng.1 rng.2 = true := by
  simpa [priceStep, List.mem_filter] using h

theorem mem_odometerStep {r : Row} {rng : Option (Int × Int)} {l : List Row}
    (h : r ∈ odometerStep rng l) :
    r ∈ l ∧ ∀ lo hi, rng = some (lo, hi) → numericPass r.odometer lo hi = true := by
  cases rng with
  | none => exact ⟨h, by simp⟩
  | some rg =>
    simp only [odometerStep, List.mem_filter] at h
    refine ⟨h.1, fun lo hi heq => ?_⟩
    injection heq with h2
    subst h2
    exact h.2

theorem mem_yearStep {r : Row} {rng : Option (Int × Int)} {l : List Row}
    (h : r ∈ yearStep rng l) :
    r ∈ l ∧ ∀ lo hi, rng = some (lo, hi) → numericPass r.model_year lo hi = true := by
  cases rng with
  | none => exact ⟨h, by simp⟩
  | some rg =>
    simp only [yearStep, List.mem_filter] at h
    refine ⟨h.1, fun lo hi heq => ?_⟩
    injection heq with h2
    subst h2
    exact h.2

theorem mem_conditionStep {r : Row} {sel : Option (List String)} {l : List Row}
    (h : r ∈ conditionStep sel l) :
    r ∈ l ∧ ∀ cs, sel = some cs → cs ≠ [] → isinPass r.condition cs = true := by
  cases sel with
  | none => exact ⟨h, by simp⟩
  | some cs0 =>
    cases cs0 with
    | nil =>
      refine ⟨h, fun cs heq hne => ?_⟩
      injection heq with h2
      exact absurd h2.symm hne
    | cons c cs' =>
      simp only [conditionStep, List.isEmpty_cons, if_false, Bool.false_eq_true,
        List.mem_filter] at h
      refine ⟨h.1, fun cs heq hne => ?_⟩
      injection heq with h2
      subst h2
      exact h.2

theorem mem_manufacturerStep {r : Row} {sel : Option (List String)} {l : List Row}
    (h : r ∈ manufacturerStep sel l) :
    r ∈ l ∧ ∀ ms, sel = some ms → ms ≠ [] → isinPass r.manufacturer ms = true := by
  cases sel with
  | none => exact ⟨h, by simp⟩
  | some ms0 =>
    cases ms0 with
    | nil =>
      refine ⟨h, fun ms heq hne => ?_⟩
      injection heq with h2
      exact absurd h2.symm hne
    | cons m ms' =>
      simp only [manufacturerStep, List.isEmpty_cons, if_false, Bool.false_eq_true,
        List.mem_filter] at h
      refine ⟨h.1, fun ms heq hne => ?_⟩
      injection heq with h2
      subst h2
      exact h.2

/-- Full decomposition of membership in the filter output: the row comes from
the input and passes every mask the script actually applied. -/
theorem mem_filtered_data {df : List Row} {p : Preds} {r : Row}
    (h : r ∈ filtered_data df p) :
    r ∈ df ∧
    numericPass r.price p.price_range.1 p.price_range.2 = true ∧
    (∀ lo hi, p.odometer_range = some (lo, hi) → numericPass r.odometer lo hi = true) ∧
    (∀ lo hi, p.year_range = some (lo, hi) → numericPass r.model_year lo hi = true) ∧
    (∀ cs, p.selected_conditions = some cs → cs ≠ [] → isinPass r.condition cs = true) ∧
    (∀ ms, p.selected_manufacturers = some ms → ms ≠ [] → isinPass r.manufacturer ms = true) := by
  unfold filtered_data at h
  obtain ⟨h, hman⟩ := mem_manufacturerStep h
  obtain ⟨h, hcond⟩ := mem_conditionStep h
  obtain ⟨h, hyear⟩ := mem_yearStep h
  obtain ⟨h, hodo⟩ := mem_odometerStep h
  obtain ⟨h, hprice⟩ := mem_priceStep h
  exact ⟨h, hprice, hodo, hyear, hcond, hman⟩

/-- A schema lacking the `price` column. -/
def noPriceSchema : Schema := ⟨false, true, true, true, true, true⟩

/-- A schema with only the `price` column. -/
def priceOnlySchema : Schema := ⟨true, false, false, false, false, false⟩

/-- A concrete widget state. -/
def exUI : UI := ⟨(0, 10), (0, 10), (1990, 2020), ["good"], ["Ford"]⟩

/-! ### Claim theorems -/

/-- Counterexample to C1 as stated: with an in-range row and an empty allowed
set for `condition`, the filter returns the row rather than zero rows —
line 92's `if selected_conditions:` is falsy on the empty list, so the empty
selection imposes no constraint. -/
theorem claim1_counterexample :
    predsEmptyCond.selected_conditions = some [] ∧
    filtered_data exTable predsEmptyCond = exTable ∧
    exTable ≠ ([] : List Row) := by decide

/-- Claim C1 (amended): an empty allowed set for `condition` is NOT
distinguished from an absent predicate — Python truthiness at line 92 skips
the mask for both, so an empty selection means "no constraint", not "exclude
all rows"; when the allowed set is non-empty, every surviving row's condition
is a non-missing member of it. -/
theorem claim1_empty_condition_set :
    (∀ (df : List Row) (p : Preds), p.selected_conditions = some [] →
      filtered_data df p = filtered_data df { p with selected_conditions := none }) ∧
    (∀ (df : List Row) (p : Preds) (cs : List String) (r : Row),
      p.selected_conditions = some cs → cs ≠ [] → r ∈ filtered_data df p →
      ∃ c, r.condition = some c ∧ c ∈ cs) := by
  constructor
  · intro df p h
    simp only [filtered_data, h]
    rfl
  · intro df p cs r h hne hmem
    obtain ⟨-, -, -, -, hcond, -⟩ := mem_filtered_data hmem
    exact (isinPass_iff _ _).mp (hcond cs h hne)

/-- Witness for the amended C1 at concrete inputs. -/
theorem claim1_empty_condition_set_witness :
    filtered_data exTable predsEmptyCond =
      filtered_data exTable { predsEmptyCond with selected_conditions := none } ∧
    (∃ c, exRow.condition = some c ∧ c ∈ ["good"]) :=
  ⟨claim1_empty_condition_set.1 exTable predsEmptyCond rfl,
   claim1_empty_condition_set.2 exTable predsGoodCond ["good"] exRow rfl
     (by decide) (by decide)⟩

/-- Counterexample to C3 as stated: a table without a `price` column does not
have its price predicate skipped — lines 44-46 read `car_data["price"]`
unconditionally, so building the predicate set raises a `KeyError`. -/
theorem claim3_counterexample :
    noPriceSchema.hasPrice = false ∧
    buildPreds noPriceSchema exUI = Except.error "KeyError: price" :=
  ⟨rfl, rfl⟩

/-- Claim C3 (amended): for the four guarded columns — odometer, model_year,
condition, manufacturer — an absent column makes the sidebar skip the widget,
the predicate entry is `none`, and a `none` entry leaves the rows untouched
(a no-op, no error); but this does NOT hold for `price`, whose widget is
built with no presence check, so the amended guarantee assumes the `price`
column exists. -/
theorem claim3_absent_columns :
    ∀ (s : Schema) (ui : UI), s.hasPrice = true →
      ∃ p, buildPreds s ui = Except.ok p ∧
        (s.hasOdometer = false → p.odometer_range = none) ∧
        (s.hasModelYear = false → p.year_range = none) ∧
        (s.hasCondition = false → p.selected_conditions = none) ∧
        (s.hasManufacturer = false → p.selected_manufacturers = none) ∧
        (∀ df : List Row, odometerStep none df = df) ∧
        (∀ df : List Row, yearStep none df = df) ∧
        (∀ df : List Row, conditionStep none df = df) ∧
        (∀ df : List Row, manufacturerStep none df = df) := by
  intro s ui hp
  refine ⟨⟨ui.priceRange,
      if s.hasOdometer then some ui.odometerRange else none,
      if s.hasModelYear then some ui.yearRange else none,
      if s.hasCondition then some ui.conditions else none,
      if s.hasManufacturer then some ui.manufacturers else none⟩,
    ?_, ?_, ?_, ?_, ?_,
    fun _ => rfl, fun _ => rfl, fun _ => rfl, fun _ => rfl⟩
  · unfold buildPreds
    rw [hp]
    rfl
  · intro h
    simp only [h, if_false, Bool.false_eq_true]
  · intro h
    simp only [h, if_false, Bool.false_eq_true]
  · intro h
    simp only [h, if_false, Bool.false_eq_true]
  · intro h
    simp only [h, if_false, Bool.false_eq_true]

/-- Witness for the amended C3: a schema with only `price` builds its
predicate set without error and every other predicate entry is absent. -/
theorem claim3_absent_columns_witness :
    ∃ p, buildPreds priceOnlySchema exUI = Except.ok p ∧
      (priceOnlySchema.hasOdometer = false → p.odometer_range = none) ∧
      (priceOnlySchema.hasModelYear = false → p.year_range = none) ∧
      (priceOnlySchema.hasCondition = false → p.selected_conditions = none) ∧
      (priceOnlySchema.hasManufacturer = false → p.selected_manufacturers = none) ∧
      (∀ df : List Row, odometerStep none df = df) ∧
      (∀ df : List Row, yearStep none df = df) ∧
      (∀ df : List Row, conditionStep none df = df) ∧
      (∀ df : List Row, manufacturerStep none df = df) :=
  claim3_absent_columns priceOnlySchema exUI rfl

/-- Counterexample to C4 as stated: with every optional predicate absent (the
empty predicate set as far as the widgets allow), the filter still drops the
row with a missing price, because the price range mask of lines 75-78 is
applied unconditionally and a NaN comparison is falsy. -/
theorem claim4_counterexample :
    defaultPreds.odometer_range = none ∧
    defaultPreds.year_range = none ∧
    defaultPreds.selected_conditions = none ∧
    defaultPreds.selected_manufacturers = none ∧
    exRowNoPrice.price = none ∧
    filtered_data table2 defaultPreds ≠ table2 := by decide

/-- Claim C4 (amended): with no optional predicate built, the filter returns
the table unchanged exactly on tables all of whose rows have a non-missing
price inside the always-applied price range; rows with missing `price` are
excluded even with no predicate chosen, so the identity law holds only under
that proviso. -/
theorem claim4_identity :
    ∀ (df : List Row) (p : Preds),
      p.odometer_range = none → p.year_range = none →
      p.selected_conditions = none → p.selected_manufacturers = none →
      (∀ r ∈ df, numericPass r.price p.price_range.1 p.price_range.2 = true) →
      filtered_data df p = df := by
  intro df p h1 h2 h3 h4 hall
  simp only [filtered_data, h1, h2, h3, h4]
  show priceStep p.price_range df = df
  exact List.filter_eq_self.mpr hall

/-- Witness for the amended C4: the one-row in-range table is returned
unchanged. -/
theorem claim4_identity_witness :
    filtered_data exTable basePreds = exTable :=
  claim4_identity exTable basePreds rfl rfl rfl rfl (by decide)

/-- Claim C2: every row surviving `filtered_data` satisfies each numeric
predicate present — the always-applied price range, and the odometer and
model-year ranges when they were built: the row's value is non-missing and
lies within the closed range, inclusive on both ends.  Conversely, a row with
a missing value on a numeric column constrained by the predicate set is
excluded from the output. -/
theorem claim2_numeric_ranges :
    (∀ (df : List Row) (p : Preds) (r : Row), r ∈ filtered_data df p →
      (∃ x, r.price = some x ∧ p.price_range.1 ≤ x ∧ x ≤ p.price_range.2) ∧
      (∀ lo hi, p.odometer_range = some (lo, hi) →
        ∃ x, r.odometer = some x ∧ lo ≤ x ∧ x ≤ hi) ∧
      (∀ lo hi, p.year_range = some (lo, hi) →
        ∃ x, r.model_year = some x ∧ lo ≤ x ∧ x ≤ hi)) ∧
    (∀ (df : List Row) (p : Preds) (r : Row),
      (r.price = none ∨
       (r.odometer = none ∧ p.odometer_range ≠ none) ∨
       (r.model_year = none ∧ p.year_range ≠ none)) →
      r ∉ filtered_data df p) := by
  constructor
  · intro df p r h
    obtain ⟨-, hprice, hodo, hyear, -, -⟩ := mem_filtered_data h
    refine ⟨(numericPass_iff _ _ _).mp hprice, ?_, ?_⟩
    · intro lo hi heq
      exact (numericPass_iff _ _ _).mp (hodo lo hi heq)
    · intro lo hi heq
      exact (numericPass_iff _ _ _).mp (hyear lo hi heq)
  · intro df p r hmiss h
    obtain ⟨-, hprice, hodo, hyear, -, -⟩ := mem_filtered_data h
    rcases hmiss with hp | ⟨ho, hne⟩ | ⟨hy, hne⟩
    · rw [hp] at hprice
      exact absurd hprice (by simp [numericPass])
    · obtain ⟨rg, hrg⟩ := Option.ne_none_iff_exists'.mp hne
      have := hodo rg.1 rg.2 (by rw [hrg])
      rw [ho] at this
      exact absurd this (by simp [numericPass])
    · obtain ⟨rg, hrg⟩ := Option.ne_none_iff_exists'.mp hne
      have := hyear rg.1 rg.2 (by rw [hrg])
      rw [hy] at this
      exact absurd this (by simp [numericPass])

/-- Witness for C2 at concrete inputs: the surviving row of `exTable` meets
the ranges, and the missing-price row of `table2` is excluded. -/
theorem claim2_numeric_ranges_witness :
    ((∃ x, exRow.price = some x ∧ basePreds.price_range.1 ≤ x ∧ x ≤ basePreds.price_range.2) ∧
     (∀ lo hi, basePreds.odometer_range = some (lo, hi) →
       ∃ x, exRow.odometer = some x ∧ lo ≤ x ∧ x ≤ hi) ∧
     (∀ lo hi, basePreds.year_range = some (lo, hi) →
       ∃ x, exRow.model_year = some x ∧ lo ≤ x ∧ x ≤ hi)) ∧
    exRowNoPrice ∉ filtered_data table2 defaultPreds :=
  ⟨claim2_numeric_ranges.1 exTable basePreds exRow (by decide),
   claim2_numeric_ranges.2 table2 defaultPreds exRowNoPrice (Or.inl rfl)⟩

/-- Claim C8: the filter output is a subsequence of the input table — every
output row is an input row, in the same relative order, no row invented and
no row duplicated. -/
theorem claim8_output_sublist :
    ∀ (df : List Row) (p : Preds), List.Sublist (filtered_data df p) df := by
  intro df p
  unfold filtered_data
  exact ((manufacturerStep_sublist _ _).trans
    ((conditionStep_sublist _ _).trans
      ((yearStep_sublist _ _).trans
        ((odometerStep_sublist _ _).trans (priceStep_sublist _ _)))))

/-- Claim C9: a numeric range predicate with lo > hi is not validated or
special-cased: the per-row interval test is simply evaluated, and no value
passes it, so the filter output is empty whenever such a predicate is
applied (the price range always is; odometer and model-year when built). -/
theorem claim9_degenerate_range :
    (∀ (v : Option Int) (lo hi : Int), hi < lo → numericPass v lo hi = false) ∧
    (∀ (df : List Row) (p : Preds), p.price_range.2 < p.price_range.1 →
      filtered_data df p = []) ∧
    (∀ (df : List Row) (p : Preds) (lo hi : Int),
      p.odometer_range = some (lo, hi) → hi < lo → filtered_data df p = []) ∧
    (∀ (df : List Row) (p : Preds) (lo hi : Int),
      p.year_range = some (lo, hi) → hi < lo → filtered_data df p = []) := by
  refine ⟨numericPass_false_of_gt, ?_, ?_, ?_⟩
  · intro df p h
    have h1 : priceStep p.price_range df = [] :=
      List.filter_eq_nil_iff.mpr (fun r _ => by
        simp [numericPass_false_of_gt r.price _ _ h])
    rw [filtered_data, h1, odometerStep_nil, yearStep_nil, conditionStep_nil,
      manufacturerStep_nil]
  · intro df p lo hi heq h
    have h1 : odometerStep p.odometer_range (priceStep p.price_range df) = [] := by
      rw [heq]
      exact List.filter_eq_nil_iff.mpr (fun r _ => by
        simp [numericPass_false_of_gt r.odometer _ _ h])
    rw [filtered_data, h1, yearStep_nil, conditionStep_nil, manufacturerStep_nil]
  · intro df p lo hi heq h
    have h1 : yearStep p.year_range
        (odometerStep p.odometer_range (priceStep p.price_range df)) = [] := by
      rw [heq]
      exact List.filter_eq_nil_iff.mpr (fun r _ => by
        simp [numericPass_false_of_gt r.model_year _ _ h])
    rw [filtered_data, h1, conditionStep_nil, manufacturerStep_nil]

/-- Witness for C9 at concrete inputs: each degenerate range empties the
output of the one-row table whose row would otherwise pass. -/
theorem claim9_degenerate_range_witness :
    numericPass (some (5 : Int)) 5 4 = false ∧
    filtered_data exTable predsBadPrice = [] ∧
    filtered_data exTable predsBadOdometer = [] ∧
    filtered_data exTable predsBadYear = [] :=
  ⟨claim9_degenerate_range.1 (some 5) 5 4 (by decide),
   claim9_degenerate_range.2.1 exTable predsBadPrice (by decide),
   claim9_degenerate_range.2.2.1 exTable predsBadOdometer 7 2 rfl (by decide),
   claim9_degenerate_range.2.2.2 exTable predsBadYear 2010 1990 rfl (by decide)⟩

/-- Claim C10: one interaction recomputes the filtered view as a pure
function of the loaded table and the fresh predicate set; the loaded table —
every row and column of it — is left unchanged. -/
theorem claim10_table_immutable :
    ∀ (st : SessionState) (p : Preds),
      (applyFilter st p).car_data = st.car_data ∧
      (applyFilter st p).filtered = filtered_data st.car_data.rows p :=
  fun _ _ => ⟨rfl, rfl⟩

/-- A raw CSV with all five source columns, one clean row and one row with an
unparsable price, missing odometer, missing model-year, missing condition and
missing model. -/
def exRawFrame : RawFrame :=
  ⟨⟨true, true, true, true, true, false⟩,
   [⟨some "10000", none, some "2000", some "good", some "Ford F-150"⟩,
    ⟨some "abc", some "5", none, none, none⟩]⟩

/-- Claim C5: for each of `price`, `odometer`, `model_year` present in the
source, the loader coerces every cell with `pd.to_numeric(errors="coerce")`:
an unparsable value becomes missing — not an error, not zero — and the row
count is preserved (no row dropped); the column ["10000", "abc", "25000"]
loads as [10000, missing, 25000]. -/
theorem claim5_numeric_coercion :
    ∀ f : RawFrame,
      (f.schema.hasPrice = true →
        (processFrame f).rows.map (fun r => r.price) =
          f.rows.map (fun r => toNumeric r.price)) ∧
      (f.schema.hasOdometer = true →
        (processFrame f).rows.map (fun r => r.odometer) =
          f.rows.map (fun r => toNumeric r.odometer)) ∧
      (f.schema.hasModelYear = true →
        (processFrame f).rows.map (fun r => r.model_year) =
          f.rows.map (fun r => toNumeric r.model_year)) ∧
      (processFrame f).rows.length = f.rows.length ∧
      [some "10000", some "abc", some "25000"].map toNumeric =
        [some (10000 : Int), none, some 25000] ∧
      toNumeric (some "abc") ≠ some 0 := by
  intro f
  refine ⟨?_, ?_, ?_, ?_, by decide, by decide⟩
  · intro h
    simp only [processFrame, List.map_map, Function.comp]
    simp [loadRow, h]
  · intro h
    simp only [processFrame, List.map_map, Function.comp]
    simp [loadRow, h]
  · intro h
    simp only [processFrame, List.map_map, Function.comp]
    simp [loadRow, h]
  · simp [processFrame]

/-- Witness for C5 at a concrete raw frame containing an unparsable price. -/
theorem claim5_numeric_coercion_witness :
    ((processFrame exRawFrame).rows.map (fun r => r.price) =
      exRawFrame.rows.map (fun r => toNumeric r.price)) ∧
    ((processFrame exRawFrame).rows.map (fun r => r.odometer) =
      exRawFrame.rows.map (fun r => toNumeric r.odometer)) ∧
    ((processFrame exRawFrame).rows.map (fun r => r.model_year) =
      exRawFrame.rows.map (fun r => toNumeric r.model_year)) ∧
    (processFrame exRawFrame).rows.length = exRawFrame.rows.length :=
  ⟨(claim5_numeric_coercion exRawFrame).1 rfl,
   (claim5_numeric_coercion exRawFrame).2.1 rfl,
   (claim5_numeric_coercion exRawFrame).2.2.1 rfl,
   (claim5_numeric_coercion exRawFrame).2.2.2.1⟩

/-- Claim C6: when a `model` column exists, the loader derives `manufacturer`
as the first whitespace-delimited token of each non-missing `model` value
("Ford F-150" yields "Ford"), and a missing `model` yields a missing
`manufacturer`. -/
theorem claim6_manufacturer_derivation :
    ∀ f : RawFrame, f.schema.hasModel = true →
      ((processFrame f).rows.map (fun r => r.manufacturer) =
        f.rows.map (fun r => deriveManufacturer r.model)) ∧
      (∀ s : String, deriveManufacturer (some s) = (splitTokens s).head?) ∧
      deriveManufacturer (some "Ford F-150") = some "Ford" ∧
      deriveManufacturer none = none := by
  intro f h
  refine ⟨?_, fun s => rfl, by decide, rfl⟩
  simp only [processFrame, List.map_map, Function.comp]
  simp [loadRow, h]

/-- Witness for C6 at a concrete raw frame with one "Ford F-150" model and
one missing model. -/
theorem claim6_manufacturer_derivation_witness :
    ((processFrame exRawFrame).rows.map (fun r => r.manufacturer) =
      exRawFrame.rows.map (fun r => deriveManufacturer r.model)) ∧
    (∀ s : String, deriveManufacturer (some s) = (splitTokens s).head?) ∧
    deriveManufacturer (some "Ford F-150") = some "Ford" ∧
    deriveManufacturer none = none :=
  claim6_manufacturer_derivation exRawFrame rfl

/-- Counterexample to C7 as stated: an existing but unreadable source file is
not handled gracefully — line 16 catches only `FileNotFoundError`, so the
read exception escapes and the session crashes rather than producing a
zero-row table and a message. -/
theorem claim7_counterexample :
    load_data ReadResult.unreadable = LoadOutcome.raised "PermissionError" ∧
    startSession ReadResult.unreadable = SessionResult.crashed "PermissionError" :=
  ⟨rfl, rfl⟩

/-- Claim C7 (amended): only the file-not-found failure is caught: the loader
then emits a user-visible message and returns the zero-row empty frame (its
emptiness being the failure signal the caller checks at line 30), and the
session stops with no further computation and no retry; a file that exists
but is unreadable raises an exception the loader does not catch. -/
theorem claim7_load_failure :
    load_data ReadResult.notFound = LoadOutcome.ok emptyFrame [missingFileMsg] ∧
    emptyFrame.rows.length = 0 ∧
    startSession ReadResult.notFound = SessionResult.stopped [missingFileMsg] ∧
    startSession ReadResult.unreadable = SessionResult.crashed "PermissionError" :=
  ⟨rfl, rfl, rfl, rfl⟩

end VehiclesApp
